import Mathlib

/-!
Verification of the Spotify-To-Apple-Music track-resolution pipeline
(src/main.py, src/token_creator.py) against its specification.

Shallow embedding conventions:
* A Spotify track is the (track_name, artist_name, album_name) triple of
  main.py line 21.
* The HTTP layer of a search request is a function from the search term to
  an Except: an error value models a raised requests.RequestException
  (connection failure or raise_for_status); an ok value carries the
  results.songs.data list of the JSON body (empty when the songs key is
  absent or its data list is empty).
* The decorator pair sleep_and_retry / limits on search_apple_music
  (main.py lines 153-154) acquires one rate-limiter slot at function
  entry; the trace of limiter acquisitions and HTTP requests of one call
  is made explicit as a list of ApiEvent.
* The ThreadPoolExecutor / as_completed loop of convert_playlist
  (main.py lines 283-298) is modelled by an explicit completion order: a
  list of task indices, a permutation of range N, folded over the
  collection step.  Each future either returns a value (Except.ok) or
  raises inside the worker (Except.error).
-/

abbrev SpotifyTrack := String × String × String

abbrev AppleMusicTrackID := String

/-- Search term of the first attempt, main.py line 191: track name,
artist name and album name joined by spaces (an f-string, so the join
happens whether or not the album is empty). -/
def first_term (track_name artist_name album_name : String) : String :=
  track_name ++ " " ++ artist_name ++ " " ++ album_name

/-- Search term of the fallback attempt, main.py line 195: track name and
artist name only. -/
def fallback_term (track_name artist_name : String) : String :=
  track_name ++ " " ++ artist_name

/-- The nested perform_search of main.py lines 173-188.  A transport
failure (requests.RequestException) is caught, logged and turned into
None; an empty songs data list (or absent songs key) yields None;
otherwise the id of the first song is returned. -/
def perform_search (http : String → Except String (List AppleMusicTrackID))
    (search_term : String) : Option AppleMusicTrackID :=
  match http search_term with
  | .error _ => none
  | .ok [] => none
  | .ok (track_id :: _) => some track_id

/-- search_apple_music, main.py lines 190-197: first attempt with all
information; if the result is None, one further attempt without the album
name.  The retry is not conditioned on the album being non-empty. -/
def search_apple_music (http : String → Except String (List AppleMusicTrackID))
    (track_name artist_name album_name : String) : Option AppleMusicTrackID :=
  match perform_search http (first_term track_name artist_name album_name) with
  | some track_id => some track_id
  | none => perform_search http (fallback_term track_name artist_name)

/-- The search terms actually attempted by one search_apple_music call, in
order: the control flow of main.py lines 190-196 issues the first term,
and the fallback term exactly when the first attempt returned None. -/
def search_attempts (http : String → Except String (List AppleMusicTrackID))
    (track_name artist_name album_name : String) : List String :=
  match perform_search http (first_term track_name artist_name album_name) with
  | some _ => [first_term track_name artist_name album_name]
  | none => [first_term track_name artist_name album_name,
             fallback_term track_name artist_name]

/-- Observable API events of one resolution: limiter slot acquisitions and
outgoing HTTP search requests. -/
inductive ApiEvent where
  | acquireToken : ApiEvent
  | request : String → ApiEvent
deriving DecidableEq, Repr

def ApiEvent.isAcquire : ApiEvent → Bool
  | .acquireToken => true
  | .request _ => false

def ApiEvent.isRequest : ApiEvent → Bool
  | .acquireToken => false
  | .request _ => true

/-- Event trace of one call of the decorated search_apple_music: the
limits/sleep_and_retry decorators (main.py lines 153-154) wrap the whole
function, so exactly one limiter acquisition happens at entry, followed by
the HTTP request of each attempted search term. -/
def search_apple_music_events (http : String → Except String (List AppleMusicTrackID))
    (track_name artist_name album_name : String) : List ApiEvent :=
  ApiEvent.acquireToken ::
    (search_attempts http track_name artist_name album_name).map ApiEvent.request

def tokenCount (es : List ApiEvent) : Nat := es.countP ApiEvent.isAcquire

def requestCount (es : List ApiEvent) : Nat := es.countP ApiEvent.isRequest

/-- JWT payload fields of the Apple Music developer tokens. -/
structure TokenPayload where
  iss : String
  iat : Nat
  exp : Nat
deriving DecidableEq, Repr

/-- Payload built by get_apple_music_token, main.py lines 141-145.
time.time() is read twice (once for iat, once for exp); t1 and t2 are the
two readings, each truncated to an integer. -/
def get_apple_music_token_payload (team_id : String) (t1 t2 : Nat) : TokenPayload :=
  { iss := team_id, iat := t1, exp := t2 + 15777000 }

/-- Payload built at token_creator.py lines 26-31: a single now = time.time()
reading (modelled at whole-second granularity), expires in 20 minutes. -/
def token_creator_payload (team_id : String) (now : Nat) : TokenPayload :=
  { iss := team_id, iat := now, exp := now + 20 * 60 }

/-- The list comprehension of get_spotify_tracks, main.py line 115: each
playlist item is kept exactly when its track field is non-null (truthy),
in which case the (name, first-artist name, album name) triple is
extracted.  An item is modelled as the optional extracted triple. -/
def get_spotify_tracks_triples (items : List (Option SpotifyTrack)) : List SpotifyTrack :=
  items.filterMap (fun track => track)

/-- Result of one submitted future as observed by future.result()
(main.py line 291): either the Optional track id that search_apple_music
returned, or a raised worker-level exception with its message. -/
abbrev TaskResult := Except String (Option AppleMusicTrackID)

/-- Mutable collection state of the as_completed loop of convert_playlist:
the preallocated slot array apple_music_track_ids (main.py line 279,
[None] * len(spotify_tracks)) and the not_found_tracks accumulator
(main.py line 280). -/
structure ConvertState where
  apple_music_track_ids : List (Option AppleMusicTrackID)
  not_found_tracks : List SpotifyTrack
deriving DecidableEq, Repr

/-- One iteration of the collection loop, main.py lines 287-298, for the
future whose index is the given one: future.result() is taken; a truthy id
is written into the slot of that index; a falsy id (None or the empty
string) appends the original triple to not_found_tracks; a raised
exception is caught, logged and also appends the triple. -/
def process_future (spotify_tracks : List SpotifyTrack) (task_result : Nat → TaskResult)
    (s : ConvertState) (index : Nat) : ConvertState :=
  let track := spotify_tracks.getD index ("", "", "")
  match task_result index with
  | .ok (some track_id) =>
      if track_id = "" then
        { s with not_found_tracks := s.not_found_tracks ++ [track] }
      else
        { s with apple_music_track_ids := s.apple_music_track_ids.set index (some track_id) }
  | .ok none => { s with not_found_tracks := s.not_found_tracks ++ [track] }
  | .error _ => { s with not_found_tracks := s.not_found_tracks ++ [track] }

/-- The whole as_completed loop: starting from the preallocated all-None
slot array and the empty not-found list, process each future in completion
order.  as_completed yields every submitted future exactly once, so a
completion order is a permutation of range N. -/
def collect_results (spotify_tracks : List SpotifyTrack) (task_result : Nat → TaskResult)
    (completion_order : List Nat) : ConvertState :=
  completion_order.foldl (process_future spotify_tracks task_result)
    { apple_music_track_ids := List.replicate spotify_tracks.length none
      not_found_tracks := [] }

/-- Core of convert_playlist, main.py lines 279-309: collect all task
results, then compact the slot array by removing None values (line 301).
Returns (compacted ordered identifiers, not-found triples); the function's
transferredCount is the length of the first component. -/
def convert_playlist (spotify_tracks : List SpotifyTrack) (task_result : Nat → TaskResult)
    (completion_order : List Nat) : List AppleMusicTrackID × List SpotifyTrack :=
  let s := collect_results spotify_tracks task_result completion_order
  (s.apple_music_track_ids.filterMap (fun track_id => track_id), s.not_found_tracks)

/-- The value a task's result leaves in its slot: some id when the future
returned a truthy id, none when it returned None or the empty string or
raised. -/
def slotValue (r : TaskResult) : Option AppleMusicTrackID :=
  match r with
  | .ok (some track_id) => if track_id = "" then none else some track_id
  | .ok none => none
  | .error _ => none

/-- The not-found entry a task's result appends for its track: the original
triple exactly when the slot stays empty. -/
def notFoundEntry (spotify_tracks : List SpotifyTrack) (task_result : Nat → TaskResult)
    (index : Nat) : Option SpotifyTrack :=
  if (slotValue (task_result index)).isSome then none
  else some (spotify_tracks.getD index ("", "", ""))

/-- Event trace of a whole run: one decorated search_apple_music call per
track.  With no tracks there are no limiter acquisitions and no requests. -/
def run_events (http : String → Except String (List AppleMusicTrackID))
    (spotify_tracks : List SpotifyTrack) : List ApiEvent :=
  spotify_tracks.flatMap
    (fun t => search_apple_music_events http t.1 t.2.1 t.2.2)

/-- Success-rate computation of main, main.py line 332: the Python
expression transferred_tracks/total_tracks.  Division by zero raises
ZeroDivisionError in Python, modelled as none; there is no N = 0 guard in
the source. -/
def success_rate (transferred_tracks total_tracks : Nat) : Option ℚ :=
  if total_tracks = 0 then none
  else some ((transferred_tracks : ℚ) / (total_tracks : ℚ))

/-! Helper lemmas about the collection loop. -/

lemma process_future_ids_length (ts : List SpotifyTrack) (tr : Nat → TaskResult)
    (s : ConvertState) (i : Nat) :
    (process_future ts tr s i).apple_music_track_ids.length =
      s.apple_music_track_ids.length := by
  unfold process_future
  cases tr i with
  | error e => rfl
  | ok o =>
    cases o with
    | none => rfl
    | some track_id =>
      by_cases hid : track_id = "" <;> simp [hid]

lemma process_future_ids_get_ne (ts : List SpotifyTrack) (tr : Nat → TaskResult)
    (s : ConvertState) (i j : Nat) (hij : i ≠ j) :
    (process_future ts tr s i).apple_music_track_ids[j]? =
      s.apple_music_track_ids[j]? := by
  unfold process_future
  cases tr i with
  | error e => rfl
  | ok o =>
    cases o with
    | none => rfl
    | some track_id =>
      by_cases hid : track_id = "" <;> simp [hid, List.getElem?_set_ne hij]

lemma foldl_ids_length (ts : List SpotifyTrack) (tr : Nat → TaskResult) :
    ∀ (order : List Nat) (s : ConvertState),
    ((order.foldl (process_future ts tr) s).apple_music_track_ids).length =
      s.apple_music_track_ids.length
  | [], s => rfl
  | i :: rest, s => by
    rw [List.foldl_cons, foldl_ids_length ts tr rest, process_future_ids_length]

lemma foldl_ids_get_notMem (ts : List SpotifyTrack) (tr : Nat → TaskResult) :
    ∀ (order : List Nat) (s : ConvertState) (j : Nat), j ∉ order →
    ((order.foldl (process_future ts tr) s).apple_music_track_ids)[j]? =
      s.apple_music_track_ids[j]?
  | [], s, j, _ => rfl
  | i :: rest, s, j, hj => by
    rw [List.foldl_cons,
      foldl_ids_get_notMem ts tr rest _ j (fun h => hj (List.mem_cons_of_mem i h)),
      process_future_ids_get_ne ts tr s i j (fun h => hj (h ▸ List.mem_cons_self i rest))]

lemma foldl_ids_get_mem (ts : List SpotifyTrack) (tr : Nat → TaskResult) :
    ∀ (order : List Nat) (s : ConvertState) (j : Nat), order.Nodup → j ∈ order →
    j < s.apple_music_track_ids.length →
    ((order.foldl (process_future ts tr) s).apple_music_track_ids)[j]? =
      if (slotValue (tr j)).isSome then some (slotValue (tr j))
      else s.apple_music_track_ids[j]?
  | [], s, j, _, hj, _ => absurd hj (List.not_mem_nil j)
  | i :: rest, s, j, hnd, hj, hlen => by
    rcases List.nodup_cons.mp hnd with ⟨hni, hndrest⟩
    rw [List.foldl_cons]
    rcases List.mem_cons.mp hj with hji | hjrest
    · subst hji
      rw [foldl_ids_get_notMem ts tr rest _ j hni]
      unfold process_future slotValue
      cases tr j with
      | error e => simp
      | ok o =>
        cases o with
        | none => simp
        | some track_id =>
          by_cases hid : track_id = ""
          · simp [hid]
          · simp [hid, List.getElem?_set_self hlen]
    · have hij : i ≠ j := fun h => hni (h ▸ hjrest)
      rw [foldl_ids_get_mem ts tr rest _ j hndrest hjrest
          (by rw [process_future_ids_length]; exact hlen),
        process_future_ids_get_ne ts tr s i j hij]

/-- The slot array after a complete collection run is determined pointwise
by each task's own result, independently of the completion order. -/
lemma collect_results_ids (ts : List SpotifyTrack) (tr : Nat → TaskResult)
    (order : List Nat) (h : order.Perm (List.range ts.length)) :
    (collect_results ts tr order).apple_music_track_ids =
      (List.range ts.length).map (fun i => slotValue (tr i)) := by
  apply List.ext_getElem?
  intro j
  by_cases hj : j < ts.length
  · have hmem : j ∈ order := h.mem_iff.mpr (List.mem_range.mpr hj)
    have hnodup : order.Nodup := h.symm.nodup (List.nodup_range ts.length)
    unfold collect_results
    rw [foldl_ids_get_mem ts tr order _ j hnodup hmem (by simpa using hj)]
    rw [List.getElem?_map, List.getElem?_range hj]
    simp only [List.getElem?_replicate_of_lt hj]
    cases hsv : slotValue (tr j) with
    | none => simp [hsv]
    | some v => simp [hsv]
  · push_neg at hj
    rw [List.getElem?_eq_none, List.getElem?_eq_none]
    · simpa using hj
    · unfold collect_results
      rw [foldl_ids_length]
      simpa using hj

/-- The not-found list after a complete collection run is the sequence of
unresolved tracks in completion order. -/
lemma foldl_notFound (ts : List SpotifyTrack) (tr : Nat → TaskResult) :
    ∀ (order : List Nat) (s : ConvertState),
    (order.foldl (process_future ts tr) s).not_found_tracks =
      s.not_found_tracks ++ order.filterMap (notFoundEntry ts tr)
  | [], s => by simp
  | i :: rest, s => by
    rw [List.foldl_cons, foldl_notFound ts tr rest, List.filterMap_cons]
    unfold process_future notFoundEntry slotValue
    cases tr i with
    | error e => simp
    | ok o =>
      cases o with
      | none => simp
      | some track_id =>
        by_cases hid : track_id = "" <;> simp [hid]

lemma collect_results_notFound (ts : List SpotifyTrack) (tr : Nat → TaskResult)
    (order : List Nat) :
    (collect_results ts tr order).not_found_tracks =
      order.filterMap (notFoundEntry ts tr) := by
  unfold collect_results
  rw [foldl_notFound]
  rfl

lemma convert_playlist_fst (ts : List SpotifyTrack) (tr : Nat → TaskResult)
    (order : List Nat) :
    (convert_playlist ts tr order).1 =
      (collect_results ts tr order).apple_music_track_ids.filterMap (fun track_id => track_id) :=
  rfl

lemma convert_playlist_snd (ts : List SpotifyTrack) (tr : Nat → TaskResult)
    (order : List Nat) :
    (convert_playlist ts tr order).2 = (collect_results ts tr order).not_found_tracks :=
  rfl

lemma notFoundEntry_isSome (ts : List SpotifyTrack) (tr : Nat → TaskResult) (i : Nat) :
    (notFoundEntry ts tr i).isSome = !(slotValue (tr i)).isSome := by
  unfold notFoundEntry
  cases h : (slotValue (tr i)).isSome <;> simp [h]

lemma countP_add_countP_not {α : Type} (p : α → Bool) :
    ∀ l : List α, l.countP p + l.countP (fun a => !(p a)) = l.length
  | [] => rfl
  | a :: l => by
    rw [List.countP_cons, List.countP_cons, List.length_cons]
    have := countP_add_countP_not p l
    cases h : p a <;> simp [h] <;> omega

lemma countP_map_request_isAcquire : ∀ l : List String,
    (l.map ApiEvent.request).countP ApiEvent.isAcquire = 0
  | [] => rfl
  | t :: l => by
    rw [List.map_cons, List.countP_cons]
    simp [ApiEvent.isAcquire, countP_map_request_isAcquire l]

lemma filterMap_id_map_some_sublist {α : Type} :
    ∀ l : List (Option α), ((l.filterMap (fun o => o)).map some).Sublist l
  | [] => List.Sublist.refl []
  | none :: l => by
    rw [List.filterMap_cons_none rfl]
    exact (filterMap_id_map_some_sublist l).cons none
  | some a :: l => by
    have h : List.filterMap (fun o => o) (some a :: l) = a :: List.filterMap (fun o => o) l := rfl
    rw [h, List.map_cons]
    exact (filterMap_id_map_some_sublist l).cons₂ (some a)

/-! Claim theorems. -/

/-- C3 counterexample: resolving a track with an EMPTY album and no
first-attempt match still performs a second search attempt (two attempts
in total), contradicting the claim that exactly one attempt is made when
the album is empty. -/
theorem search_empty_album_two_attempts :
    (search_attempts (fun _ => Except.ok []) "Song B" "Artist Y" "").length = 2
    ∧ (2 : Nat) ≠ 1 :=
  ⟨rfl, by decide⟩

/-- C3 (amended): the fallback is unconditional on the album: whenever the
first attempt returns no result, exactly one further attempt with title
and artist only is made — whether or not the album was empty; when the
first attempt matches, exactly one attempt is made in total. -/
theorem search_attempts_spec (http : String → Except String (List AppleMusicTrackID))
    (track_name artist_name album_name : String) :
    (perform_search http (first_term track_name artist_name album_name) = none →
      search_attempts http track_name artist_name album_name =
        [first_term track_name artist_name album_name,
         fallback_term track_name artist_name])
    ∧ (∀ track_id,
        perform_search http (first_term track_name artist_name album_name) = some track_id →
        search_attempts http track_name artist_name album_name =
          [first_term track_name artist_name album_name]) := by
  unfold search_attempts
  constructor
  · intro h
    rw [h]
  · intro track_id h
    rw [h]

/-- Witness for the amended C3 theorem at a concrete input. -/
theorem search_attempts_spec_witness :
    perform_search (fun _ => Except.ok []) (first_term "Song A" "Artist X" "Album 1") = none
    ∧ search_attempts (fun _ => Except.ok []) "Song A" "Artist X" "Album 1" =
        [first_term "Song A" "Artist X" "Album 1", fallback_term "Song A" "Artist X"] :=
  ⟨rfl, (search_attempts_spec (fun _ => Except.ok []) "Song A" "Artist X" "Album 1").1 rfl⟩

/-- C5 counterexample: a resolution that performs two attempts consumes
ONE rate-limit token, not two: the limits decorator wraps the whole
search_apple_music call, not each attempt. -/
theorem search_two_attempts_one_token :
    requestCount (search_apple_music_events (fun _ => Except.ok [])
        "Song A" "Artist X" "Album 1") = 2
    ∧ tokenCount (search_apple_music_events (fun _ => Except.ok [])
        "Song A" "Artist X" "Album 1") = 1
    ∧ (1 : Nat) ≠ 2 :=
  ⟨rfl, rfl, by decide⟩

/-- C5 (amended): every resolution acquires exactly one rate-limiter slot,
at entry of the decorated search_apple_music call, regardless of whether
it goes on to perform one or two search attempts. -/
theorem search_apple_music_one_token (http : String → Except String (List AppleMusicTrackID))
    (track_name artist_name album_name : String) :
    tokenCount (search_apple_music_events http track_name artist_name album_name) = 1 := by
  unfold tokenCount search_apple_music_events
  rw [List.countP_cons, countP_map_request_isAcquire]
  simp [ApiEvent.isAcquire]

/-- C6: a transport failure of a search attempt is caught inside
perform_search and degrades to None: if the first attempt's request
raises, resolution continues with the fallback attempt, and if that
request also raises, search_apple_music returns None rather than
propagating the exception. -/
theorem search_apple_music_transport_failure
    (http : String → Except String (List AppleMusicTrackID))
    (track_name artist_name album_name : String) (e1 : String)
    (h1 : http (first_term track_name artist_name album_name) = Except.error e1) :
    search_apple_music http track_name artist_name album_name =
      perform_search http (fallback_term track_name artist_name)
    ∧ ∀ e2, http (fallback_term track_name artist_name) = Except.error e2 →
        search_apple_music http track_name artist_name album_name = none := by
  have hfirst : perform_search http (first_term track_name artist_name album_name) = none := by
    unfold perform_search
    rw [h1]
  constructor
  · unfold search_apple_music
    rw [hfirst]
  · intro e2 h2
    unfold search_apple_music
    rw [hfirst]
    unfold perform_search
    rw [h2]

/-- Witness for the C6 theorem at a concrete input where every request
raises a connection error. -/
theorem search_apple_music_transport_failure_witness :
    (fun _ : String => (Except.error "connection error" : Except String (List AppleMusicTrackID)))
        (first_term "Song A" "Artist X" "Album 1") = Except.error "connection error"
    ∧ search_apple_music (fun _ => Except.error "connection error")
        "Song A" "Artist X" "Album 1" = none :=
  ⟨rfl,
    (search_apple_music_transport_failure (fun _ => Except.error "connection error")
        "Song A" "Artist X" "Album 1" "connection error" rfl).2 "connection error" rfl⟩

/-- C9 counterexample: the repository contains two token issuers with two
different horizons: token_creator.py expires its token 1200 seconds (20
minutes) after issuance, which is not the roughly-six-months constant
15777000 used by main.py, so there is no single six-month constant shared
by every issuance. -/
theorem token_creator_horizon_not_six_months :
    (token_creator_payload "team" 1000).exp - (token_creator_payload "team" 1000).iat = 1200
    ∧ (get_apple_music_token_payload "team" 1000 1000).exp -
        (get_apple_music_token_payload "team" 1000 1000).iat = 15777000
    ∧ (1200 : Nat) ≠ 15777000 :=
  ⟨rfl, rfl, by decide⟩

/-- C9 (amended): get_apple_music_token in main.py issues a payload whose
issued-at field is the clock reading and whose expiry is the clock reading
plus the fixed constant 15777000 seconds — between 182 and 183 days,
i.e. roughly six months, the same constant at every call; the standalone
token_creator.py script instead uses a 20-minute horizon. -/
theorem token_payload_horizons (team_id : String) (t : Nat) :
    (get_apple_music_token_payload team_id t t).iat = t
    ∧ (get_apple_music_token_payload team_id t t).exp = t + 15777000
    ∧ 182 * 86400 ≤ 15777000 ∧ 15777000 ≤ 183 * 86400
    ∧ (token_creator_payload team_id t).exp = t + 20 * 60 :=
  ⟨rfl, rfl, by norm_num, by norm_num, rfl⟩

/-- C10: fetching the source playlist keeps exactly the items whose track
field is non-null, in their original relative order: the extracted triples,
rewrapped in some, form a sublist of the item list; the output length is
the count of non-null items (so it may be shorter than the input); and
every returned triple comes from a non-null item. -/
theorem get_spotify_tracks_drops_null (items : List (Option SpotifyTrack)) :
    ((get_spotify_tracks_triples items).map some).Sublist items
    ∧ (get_spotify_tracks_triples items).length =
        items.countP (fun track => track.isSome)
    ∧ ∀ t ∈ get_spotify_tracks_triples items, some t ∈ items := by
  refine ⟨filterMap_id_map_some_sublist items, ?_, ?_⟩
  · unfold get_spotify_tracks_triples
    rw [List.length_filterMap_eq_countP]
  · intro t ht
    exact (filterMap_id_map_some_sublist items).subset (List.mem_map_of_mem some ht)

/-- C1: for every input track list of length N and every completion order
of the parallel resolutions, the number of collected destination
identifiers plus the length of the not-found list equals N — no track is
dropped and none is duplicated. -/
theorem convert_playlist_count (ts : List SpotifyTrack) (tr : Nat → TaskResult)
    (order : List Nat) (h : order.Perm (List.range ts.length)) :
    (convert_playlist ts tr order).1.length + (convert_playlist ts tr order).2.length
      = ts.length := by
  rw [convert_playlist_fst, convert_playlist_snd,
    collect_results_ids ts tr order h, collect_results_notFound,
    List.filterMap_map, List.length_filterMap_eq_countP, List.length_filterMap_eq_countP,
    (h.countP_eq _)]
  have hcong : (fun i => (notFoundEntry ts tr i).isSome)
      = (fun i => !((fun j => (slotValue (tr j)).isSome) i)) := by
    funext i
    exact notFoundEntry_isSome ts tr i
  rw [hcong]
  have := countP_add_countP_not (fun j => (slotValue (tr j)).isSome) (List.range ts.length)
  rw [List.length_range] at this
  exact this

/-- Witness for the C1 theorem at a concrete one-track input. -/
theorem convert_playlist_count_witness :
    ([0] : List Nat).Perm (List.range 1)
    ∧ (convert_playlist [("Song A", "Artist X", "Album 1")]
          (fun _ => Except.ok none) [0]).1.length
      + (convert_playlist [("Song A", "Artist X", "Album 1")]
          (fun _ => Except.ok none) [0]).2.length = 1 :=
  ⟨by decide,
    convert_playlist_count [("Song A", "Artist X", "Album 1")]
      (fun _ => Except.ok none) [0] (by decide)⟩

/-- C2: for every completion order of the resolution tasks, the compacted
identifier list equals the filter of the per-position slot values over
positions in increasing order — found identifiers appear in the relative
order of their originating tracks' positions, independent of which worker
finished first. -/
theorem convert_playlist_order_preserved (ts : List SpotifyTrack) (tr : Nat → TaskResult)
    (order : List Nat) (h : order.Perm (List.range ts.length)) :
    (convert_playlist ts tr order).1 =
      (List.range ts.length).filterMap (fun i => slotValue (tr i)) := by
  rw [convert_playlist_fst, collect_results_ids ts tr order h, List.filterMap_map]
  rfl

/-- Witness for the C2 theorem: two found tracks collected in reversed
completion order still come out in position order. -/
theorem convert_playlist_order_preserved_witness :
    ([1, 0] : List Nat).Perm (List.range 2)
    ∧ (convert_playlist [("Song A", "Artist X", "Album 1"), ("Song B", "Artist Y", "")]
        (fun i => Except.ok (some (if i = 0 then "100" else "200"))) [1, 0]).1
      = ["100", "200"] :=
  ⟨by decide, by
    rw [convert_playlist_order_preserved
      [("Song A", "Artist X", "Album 1"), ("Song B", "Artist Y", "")]
      (fun i => Except.ok (some (if i = 0 then "100" else "200"))) [1, 0] (by decide)]
    decide⟩

/-- C4 (code evaluated at the failing input): for the empty track list the
run yields no identifiers, no not-found entries and an empty API event
trace (no limiter acquisitions, no search requests); but the success-rate
expression of main.py line 332 divides by the total count with no N = 0
guard, so at total = 0 it has no value (ZeroDivisionError in Python). -/
theorem convert_playlist_empty_run (http : String → Except String (List AppleMusicTrackID))
    (tr : Nat → TaskResult) :
    convert_playlist [] tr [] = ([], [])
    ∧ run_events http [] = []
    ∧ success_rate 0 0 = none :=
  ⟨rfl, rfl, rfl⟩

/-- C7: a worker fault at one position is caught at the collection point:
the slot of every other position holds exactly the value it would hold in
the fault-free run, the faulted position's slot stays empty, and the
faulted position's track is reported as not found. -/
theorem convert_playlist_worker_fault (ts : List SpotifyTrack) (tr : Nat → TaskResult)
    (order : List Nat) (j : Nat) (e : String)
    (h : order.Perm (List.range ts.length)) (hj : j < ts.length) :
    (∀ i, i ≠ j →
      (collect_results ts (fun k => if k = j then Except.error e else tr k) order).apple_music_track_ids[i]?
        = (collect_results ts tr order).apple_music_track_ids[i]?)
    ∧ (collect_results ts (fun k => if k = j then Except.error e else tr k) order).apple_music_track_ids[j]?
        = some none
    ∧ ts.getD j ("", "", "") ∈
        (collect_results ts (fun k => if k = j then Except.error e else tr k) order).not_found_tracks := by
  have hids := collect_results_ids ts (fun k => if k = j then Except.error e else tr k) order h
  have hids0 := collect_results_ids ts tr order h
  refine ⟨?_, ?_, ?_⟩
  · intro i hij
    rw [hids, hids0, List.getElem?_map, List.getElem?_map]
    by_cases hi : i < ts.length
    · rw [List.getElem?_range hi]
      simp [hij]
    · rw [List.getElem?_eq_none (by simpa using Nat.le_of_not_lt hi)]
      rfl
  · rw [hids, List.getElem?_map, List.getElem?_range hj]
    simp [slotValue]
  · rw [collect_results_notFound]
    apply List.mem_filterMap.mpr
    refine ⟨j, h.mem_iff.mpr (List.mem_range.mpr hj), ?_⟩
    unfold notFoundEntry
    simp [slotValue]

/-- Witness for the C7 theorem: a concrete two-track run where task 1
faults and task 0 keeps its fault-free outcome. -/
theorem convert_playlist_worker_fault_witness :
    ([0, 1] : List Nat).Perm (List.range 2) ∧ 1 < 2
    ∧ ((∀ i, i ≠ 1 →
        (collect_results [("Song A", "Artist X", "Album 1"), ("Song B", "Artist Y", "")]
          (fun k => if k = 1 then Except.error "boom" else Except.ok (some "100"))
          [0, 1]).apple_music_track_ids[i]?
          = (collect_results [("Song A", "Artist X", "Album 1"), ("Song B", "Artist Y", "")]
              (fun _ => Except.ok (some "100")) [0, 1]).apple_music_track_ids[i]?)
      ∧ (collect_results [("Song A", "Artist X", "Album 1"), ("Song B", "Artist Y", "")]
          (fun k => if k = 1 then Except.error "boom" else Except.ok (some "100"))
          [0, 1]).apple_music_track_ids[1]? = some none
      ∧ ("Song B", "Artist Y", "") ∈
          (collect_results [("Song A", "Artist X", "Album 1"), ("Song B", "Artist Y", "")]
            (fun k => if k = 1 then Except.error "boom" else Except.ok (some "100"))
            [0, 1]).not_found_tracks) :=
  ⟨by decide, by decide,
    convert_playlist_worker_fault
      [("Song A", "Artist X", "Album 1"), ("Song B", "Artist Y", "")]
      (fun _ => Except.ok (some "100")) [0, 1] 1 "boom" (by decide) (by decide)⟩

/-- C8 counterexample: with both tracks unresolved and completion order
[1, 0], the not-found report lists the tracks in completion order, not in
position order — the claim that the report is in position order for every
completion order is false. -/
theorem convert_playlist_notFound_completion_counterexample :
    ([1, 0] : List Nat).Perm (List.range 2)
    ∧ (convert_playlist [("Song A", "Artist X", "Album 1"), ("Song B", "Artist Y", "Album 2")]
        (fun _ => Except.ok none) [1, 0]).2
      = [("Song B", "Artist Y", "Album 2"), ("Song A", "Artist X", "Album 1")]
    ∧ (convert_playlist [("Song A", "Artist X", "Album 1"), ("Song B", "Artist Y", "Album 2")]
        (fun _ => Except.ok none) [1, 0]).2
      ≠ [("Song A", "Artist X", "Album 1"), ("Song B", "Artist Y", "Album 2")] :=
  ⟨by decide, by decide, by decide⟩

/-- C8 (amended): the not-found report lists the unresolved tracks in task
COMPLETION order, each entry carrying the original (title, artist, album)
triple; it is a permutation of the position-ordered list of unresolved
tracks. -/
theorem convert_playlist_notFound_spec (ts : List SpotifyTrack) (tr : Nat → TaskResult)
    (order : List Nat) (h : order.Perm (List.range ts.length)) :
    (convert_playlist ts tr order).2 = order.filterMap (notFoundEntry ts tr)
    ∧ (convert_playlist ts tr order).2.Perm
        ((List.range ts.length).filterMap (notFoundEntry ts tr)) := by
  constructor
  · rw [convert_playlist_snd, collect_results_notFound]
  · rw [convert_playlist_snd, collect_results_notFound]
    exact h.filterMap _

/-- Witness for the amended C8 theorem at a concrete input. -/
theorem convert_playlist_notFound_spec_witness :
    ([1, 0] : List Nat).Perm (List.range 2)
    ∧ (convert_playlist [("Song A", "Artist X", "Album 1"), ("Song B", "Artist Y", "Album 2")]
        (fun _ => Except.ok none) [1, 0]).2
      = [1, 0].filterMap
          (notFoundEntry [("Song A", "Artist X", "Album 1"), ("Song B", "Artist Y", "Album 2")]
            (fun _ => Except.ok none)) :=
  ⟨by decide,
    (convert_playlist_notFound_spec
      [("Song A", "Artist X", "Album 1"), ("Song B", "Artist Y", "Album 2")]
      (fun _ => Except.ok none) [1, 0] (by decide)).1⟩
